import Mathlib

/-!
Verification of the Arkadia TPH sensor pipeline.

This file gives a shallow embedding, in Lean, of the Python sources
`services/tph/bme280_client.py`, `services/tph/main.py` and
`services/data/main.py`, and proves properties of that embedding.

Modelling conventions:
* Python `float` (IEEE double) arithmetic is modelled by exact rational
  arithmetic over `ℚ`, keeping the source's operation structure and
  evaluation order; Python `int` is modelled by `ℤ`/`ℕ`.
* The mutable instance attribute `self.t_fine` of `BME280Client` is
  modelled by explicit state passing of a `ClientState` value.
* Byte blocks read from the I2C bus are modelled as functions
  `Fin n → ℕ` (one byte per index).
-/

/-! ## services/tph/bme280_client.py -/

/-- `CalibrationData` — the 18 BME280 calibration constants
(dataclass in `bme280_client.py`). -/
structure CalibrationData where
  dig_T1 : ℤ
  dig_T2 : ℤ
  dig_T3 : ℤ
  dig_P1 : ℤ
  dig_P2 : ℤ
  dig_P3 : ℤ
  dig_P4 : ℤ
  dig_P5 : ℤ
  dig_P6 : ℤ
  dig_P7 : ℤ
  dig_P8 : ℤ
  dig_P9 : ℤ
  dig_H1 : ℤ
  dig_H2 : ℤ
  dig_H3 : ℤ
  dig_H4 : ℤ
  dig_H5 : ℤ
  dig_H6 : ℤ
deriving DecidableEq, Repr

/-- `BME280Client._get_signed_16`: two bytes to a signed 16-bit integer. -/
def get_signed_16 (msb lsb : ℕ) : ℤ :=
  let val := (msb <<< 8) ||| lsb
  if val ≥ 32768 then (val : ℤ) - 65536 else (val : ℤ)

/-- `BME280Client._get_temperature_calibration` over the 26-byte block A. -/
def get_temperature_calibration (data : Fin 26 → ℕ) : ℤ × ℤ × ℤ :=
  let dig_T1 : ℤ := ((data 1) <<< 8) ||| (data 0)
  let dig_T2 := get_signed_16 (data 3) (data 2)
  let dig_T3 := get_signed_16 (data 5) (data 4)
  (dig_T1, dig_T2, dig_T3)

/-- `BME280Client._get_humidity_calibration` over block A (26 bytes, `cal1`)
and the 7-byte humidity block B (`cal2`).  The source applies no sign
conversion to `dig_H4`/`dig_H5` (despite its `# signed short` comments);
this embedding reproduces the source as written. -/
def get_humidity_calibration (cal1 : Fin 26 → ℕ) (cal2 : Fin 7 → ℕ) :
    ℤ × ℤ × ℤ × ℤ × ℤ × ℤ :=
  let dig_H1 : ℤ := cal1 25
  let dig_H2 : ℤ := get_signed_16 (cal2 1) (cal2 0)
  let dig_H3 : ℤ := cal2 2
  let dig_H4 : ℤ := ((cal2 3) <<< 4) ||| ((cal2 4) &&& 0x0F)
  let dig_H5 : ℤ := ((cal2 5) <<< 4) ||| ((cal2 4) >>> 4)
  let dig_H6 : ℤ := if (cal2 6 : ℕ) > 127 then (cal2 6 : ℤ) - 256 else (cal2 6 : ℤ)
  (dig_H1, dig_H2, dig_H3, dig_H4, dig_H5, dig_H6)

/-- The mutable state of a `BME280Client` instance relevant to compensation:
the `self.t_fine` attribute written by `_compensate_temperature` and read by
`_compensate_pressure` and `_compensate_humidity`. -/
structure ClientState where
  t_fine : ℚ
deriving DecidableEq, Repr

/-- `BME280Client._compensate_temperature`: returns the temperature in °C and
the client state after the call (with `self.t_fine` freshly assigned). -/
def compensate_temperature (c : CalibrationData) (st : ClientState) (adc_T : ℤ) :
    ℚ × ClientState :=
  let var1 : ℚ := ((adc_T : ℚ) / 16384 - (c.dig_T1 : ℚ) / 1024) * (c.dig_T2 : ℚ)
  let var2 : ℚ :=
    ((adc_T : ℚ) / 131072 - (c.dig_T1 : ℚ) / 8192)
      * ((adc_T : ℚ) / 131072 - (c.dig_T1 : ℚ) / 8192)
      * (c.dig_T3 : ℚ)
  let t_fine := var1 + var2
  (t_fine / 5120, { st with t_fine := t_fine })

/-- `BME280Client._compensate_pressure`: pressure in Pa computed from the raw
ADC value and `self.t_fine`; returns `0` when the final `var1` denominator is
zero. -/
def compensate_pressure (c : CalibrationData) (st : ClientState) (adc_P : ℤ) : ℚ :=
  let var1 : ℚ := st.t_fine / 2 - 64000
  let var2 : ℚ := var1 * var1 * (c.dig_P6 : ℚ) / 32768
  let var2 : ℚ := var2 + var1 * (c.dig_P5 : ℚ) * 2
  let var2 : ℚ := var2 / 4 + (c.dig_P4 : ℚ) * 65536
  let var1 : ℚ := ((c.dig_P3 : ℚ) * var1 * var1 / 524288 + (c.dig_P2 : ℚ) * var1) / 524288
  let var1 : ℚ := (1 + var1 / 32768) * (c.dig_P1 : ℚ)
  if var1 = 0 then 0
  else
    let p : ℚ := 1048576 - (adc_P : ℚ)
    let p : ℚ := (p - var2 / 4096) * 6250 / var1
    let r1 : ℚ := (c.dig_P9 : ℚ) * p * p / 2147483648
    let r2 : ℚ := p * (c.dig_P8 : ℚ) / 32768
    p + (r1 + r2 + (c.dig_P7 : ℚ)) / 16

/-- `BME280Client._compensate_humidity`: relative humidity computed from the
raw ADC value and `self.t_fine`, clamped into `[0, 100]`. -/
def compensate_humidity (c : CalibrationData) (st : ClientState) (adc_H : ℤ) : ℚ :=
  let var_H : ℚ := st.t_fine - 76800
  let var_H : ℚ :=
    ((adc_H : ℚ) - ((c.dig_H4 : ℚ) * 64 + (c.dig_H5 : ℚ) / 16384 * var_H))
      * ((c.dig_H2 : ℚ) / 65536
          * (1 + (c.dig_H6 : ℚ) / 67108864 * var_H
              * (1 + (c.dig_H3 : ℚ) / 67108864 * var_H)))
  let var_H : ℚ := var_H * (1 - (c.dig_H1 : ℚ) * var_H / 524288)
  if var_H > 100 then 100
  else if var_H < 0 then 0
  else var_H

/-- The dictionary returned by `BME280Client.read_data` (the `time.time()`
wall-clock value is passed in as `now`). -/
structure Measurement where
  temperature : ℚ
  pressure : ℚ
  humidity : ℚ
  timestamp : ℚ
deriving DecidableEq, Repr

/-- Raw pressure ADC value assembled in `read_data`:
`(data[0] << 12) | (data[1] << 4) | (data[2] >> 4)`. -/
def raw_pressure_of (data : Fin 8 → ℕ) : ℤ :=
  (((data 0) <<< 12) ||| ((data 1) <<< 4) ||| ((data 2) >>> 4) : ℕ)

/-- Raw temperature ADC value assembled in `read_data`:
`(data[3] << 12) | (data[4] << 4) | (data[5] >> 4)`. -/
def raw_temperature_of (data : Fin 8 → ℕ) : ℤ :=
  (((data 3) <<< 12) ||| ((data 4) <<< 4) ||| ((data 5) >>> 4) : ℕ)

/-- Raw humidity ADC value assembled in `read_data`:
`(data[6] << 8) | data[7]`. -/
def raw_humidity_of (data : Fin 8 → ℕ) : ℤ :=
  (((data 6) <<< 8) ||| (data 7) : ℕ)

/-- `BME280Client.read_data` on one 8-byte burst: temperature is compensated
first (assigning `self.t_fine`), then pressure (converted to hPa by `/ 100`)
and humidity are compensated against the updated state. -/
def read_data (c : CalibrationData) (st : ClientState) (data : Fin 8 → ℕ) (now : ℚ) :
    Measurement × ClientState :=
  let raw_pressure := raw_pressure_of data
  let raw_temperature := raw_temperature_of data
  let raw_humidity := raw_humidity_of data
  let res := compensate_temperature c st raw_temperature
  let temperature := res.1
  let st1 := res.2
  let pressure := compensate_pressure c st1 raw_pressure / 100
  let humidity := compensate_humidity c st1 raw_humidity
  ({ temperature := temperature, pressure := pressure, humidity := humidity,
     timestamp := now }, st1)

/-! ### Spec-side definitions (from the spec's words, for comparison) -/

/-- Spec §4.4 step 1: `var1 = (rawT/16384 − T1/1024) * T2`. -/
def specTempVar1 (c : CalibrationData) (rawT : ℤ) : ℚ :=
  ((rawT : ℚ) / 16384 - (c.dig_T1 : ℚ) / 1024) * (c.dig_T2 : ℚ)

/-- Spec §4.4 step 1: `var2 = (rawT/131072 − T1/8192)² * T3`. -/
def specTempVar2 (c : CalibrationData) (rawT : ℤ) : ℚ :=
  ((rawT : ℚ) / 131072 - (c.dig_T1 : ℚ) / 8192) ^ 2 * (c.dig_T3 : ℚ)

/-- Spec §4.4 step 1: `fine = var1 + var2`. -/
def specFine (c : CalibrationData) (rawT : ℤ) : ℚ :=
  specTempVar1 c rawT + specTempVar2 c rawT

/-- The final `var1` denominator term of the pressure compensation:
`var1 = (1 + var1/32768) * P1` after the `var1` refinements. -/
def pressure_var1_final (c : CalibrationData) (t_fine : ℚ) : ℚ :=
  let var1 : ℚ := t_fine / 2 - 64000
  let var1b : ℚ := ((c.dig_P3 : ℚ) * var1 * var1 / 524288 + (c.dig_P2 : ℚ) * var1) / 524288
  (1 + var1b / 32768) * (c.dig_P1 : ℚ)

/-- The unguarded pressure polynomial (the `else` branch of
`_compensate_pressure`), in Pa. -/
def pressure_poly (c : CalibrationData) (t_fine : ℚ) (adc_P : ℤ) : ℚ :=
  let var1 : ℚ := t_fine / 2 - 64000
  let var2 : ℚ := var1 * var1 * (c.dig_P6 : ℚ) / 32768
  let var2 : ℚ := var2 + var1 * (c.dig_P5 : ℚ) * 2
  let var2 : ℚ := var2 / 4 + (c.dig_P4 : ℚ) * 65536
  let p : ℚ := 1048576 - (adc_P : ℚ)
  let p : ℚ := (p - var2 / 4096) * 6250 / pressure_var1_final c t_fine
  let r1 : ℚ := (c.dig_P9 : ℚ) * p * p / 2147483648
  let r2 : ℚ := p * (c.dig_P8 : ℚ) / 32768
  p + (r1 + r2 + (c.dig_P7 : ℚ)) / 16

/-- 7-byte humidity calibration block with the nibble-packed pattern
`0x800` in both `H4` and `H5`: bytes `[0, 0, 0, 0x80, 0x00, 0x80, 0]`. -/
def humCal2Fixture : Fin 7 → ℕ := fun i => if i.val = 3 ∨ i.val = 5 then 128 else 0

/-- All-zero 26-byte calibration block A fixture. -/
def humCal1Fixture : Fin 26 → ℕ := fun _ => 0

/-- C1: the spec demands two's-complement decoding of the nibble-packed
12-bit fields `H4`/`H5` (pattern ≥ 2048 decodes to pattern − 4096, i.e.
negative).  On the block with `B[3] = B[5] = 0x80`, `B[4] = 0x00` the packed
pattern is `2048 ≥ 2048`, so the claimed decoded value is `2048 − 4096 =
−2048`; the code returns `+2048` for both `H4` and `H5` (it never
sign-extends), contradicting its own `# signed short` comments. -/
theorem hum_calib_H4_H5_not_sign_extended :
    get_humidity_calibration humCal1Fixture humCal2Fixture = (0, 0, 0, 2048, 2048, 0) ∧
    ((128 <<< 4) ||| (0 &&& 0x0F) : ℕ) = 2048 ∧
    (2048 : ℤ) - 4096 = -2048 ∧
    (get_humidity_calibration humCal1Fixture humCal2Fixture).2.2.2.1 ≠ -2048 ∧
    ¬ (get_humidity_calibration humCal1Fixture humCal2Fixture).2.2.2.1 < 0 ∧
    (get_humidity_calibration humCal1Fixture humCal2Fixture).2.2.2.2.1 ≠ -2048 := by
  refine ⟨by decide, by decide, by decide, by decide, by decide, by decide⟩

/-- C2: within one `read_data` call, pressure and humidity are compensated
against exactly the `t_fine` produced by this call's temperature
compensation; the measurement (and the post-state) is independent of the
`t_fine` left over from any previous read. -/
theorem read_data_uses_same_read_t_fine (c : CalibrationData) (s₁ s₂ : ClientState)
    (data : Fin 8 → ℕ) (now : ℚ) :
    read_data c s₁ data now = read_data c s₂ data now ∧
    (read_data c s₁ data now).2 = (compensate_temperature c s₁ (raw_temperature_of data)).2 ∧
    (read_data c s₁ data now).1.temperature
      = (compensate_temperature c s₁ (raw_temperature_of data)).1 ∧
    (read_data c s₁ data now).1.pressure
      = compensate_pressure c (compensate_temperature c s₁ (raw_temperature_of data)).2
          (raw_pressure_of data) / 100 ∧
    (read_data c s₁ data now).1.humidity
      = compensate_humidity c (compensate_temperature c s₁ (raw_temperature_of data)).2
          (raw_humidity_of data) :=
  ⟨rfl, rfl, rfl, rfl, rfl⟩

/-- C3: temperature compensation returns `(var1 + var2) / 5120` with
`var1 = (rawT/16384 − T1/1024)·T2` and `var2 = (rawT/131072 − T1/8192)²·T3`,
and retains `fine = var1 + var2` as the post-state `t_fine`. -/
theorem compensate_temperature_matches_spec (c : CalibrationData) (st : ClientState)
    (adc_T : ℤ) :
    compensate_temperature c st adc_T = (specFine c adc_T / 5120, ⟨specFine c adc_T⟩) := by
  have h : specFine c adc_T =
      ((adc_T : ℚ) / 16384 - (c.dig_T1 : ℚ) / 1024) * (c.dig_T2 : ℚ)
        + ((adc_T : ℚ) / 131072 - (c.dig_T1 : ℚ) / 8192)
            * ((adc_T : ℚ) / 131072 - (c.dig_T1 : ℚ) / 8192)
            * (c.dig_T3 : ℚ) := by
    simp only [specFine, specTempVar1, specTempVar2]
    ring
  simp only [compensate_temperature, h]

/-- C4: if the final `var1` denominator term is exactly zero, pressure
compensation returns exactly `0`; otherwise it returns the compensation
polynomial; and `read_data` divides the result by 100 (Pa → hPa). -/
theorem compensate_pressure_guard (c : CalibrationData) (st : ClientState) (adc_P : ℤ) :
    (pressure_var1_final c st.t_fine = 0 → compensate_pressure c st adc_P = 0) ∧
    (pressure_var1_final c st.t_fine ≠ 0 →
      compensate_pressure c st adc_P = pressure_poly c st.t_fine adc_P) ∧
    ∀ (s : ClientState) (data : Fin 8 → ℕ) (now : ℚ),
      (read_data c s data now).1.pressure
        = compensate_pressure c (compensate_temperature c s (raw_temperature_of data)).2
            (raw_pressure_of data) / 100 := by
  refine ⟨fun h => ?_, fun h => ?_, fun s data now => rfl⟩
  · simp only [compensate_pressure]
    rw [if_pos]
    simpa [pressure_var1_final] using h
  · simp only [compensate_pressure]
    rw [if_neg]
    · simp only [pressure_poly, pressure_var1_final]
    · simpa [pressure_var1_final] using h

/-- Concrete calibration record with `P1 = 0` (forces the pressure
denominator to zero) and all other constants zero. -/
def calibZero : CalibrationData :=
  ⟨0, 0, 0, 0, 0, 0, 0, 0, 0, 0, 0, 0, 0, 0, 0, 0, 0, 0⟩

/-- Witness for C4 at a concrete input: with `calibZero` (so `P1 = 0`) the
denominator is zero and the compensated pressure is exactly `0`. -/
theorem compensate_pressure_guard_witness :
    pressure_var1_final calibZero (0 : ℚ) = 0 ∧
    compensate_pressure calibZero ⟨0⟩ 0 = 0 := by
  have hden : pressure_var1_final calibZero (0 : ℚ) = 0 := by
    norm_num [pressure_var1_final, calibZero]
  exact ⟨hden, (compensate_pressure_guard calibZero ⟨0⟩ 0).1 hden⟩

/-- C7: the compensated humidity always lies in the closed interval
`[0, 100]`. -/
theorem compensate_humidity_clamped (c : CalibrationData) (st : ClientState) (adc_H : ℤ) :
    0 ≤ compensate_humidity c st adc_H ∧ compensate_humidity c st adc_H ≤ 100 := by
  simp only [compensate_humidity]
  split_ifs with h1 h2
  · exact ⟨by norm_num, le_refl _⟩
  · exact ⟨le_refl _, by norm_num⟩
  · exact ⟨le_of_not_lt h2, le_of_not_lt h1⟩

/-! ## services/tph/main.py -/

/-- One row of the pandas `DataFrame` built by `get_data_sample` (after its
`astype` conversion): numeric columns are float64 (a missing value is `NaN`,
modelled by `none`), the timestamp column is a string column. -/
structure SampleRow where
  sensor_time : Option ℚ
  timestamp : Option String
  temperature : Option ℚ
  humidity : Option ℚ
  pressure : Option ℚ
deriving DecidableEq, Repr

/-- `df.isnull()` for one row: true when any field is missing. -/
def rowHasNull (r : SampleRow) : Bool :=
  r.sensor_time.isNone || r.timestamp.isNone || r.temperature.isNone ||
    r.humidity.isNone || r.pressure.isNone

/-- Sample variance with `ddof = 1` (the square of pandas `Series.std()`):
`Σ (x − mean)² / (n − 1)`. -/
def sampleVariance (xs : List ℚ) : ℚ :=
  let n : ℚ := xs.length
  let m : ℚ := xs.sum / n
  ((xs.map fun x => (x - m) ^ 2).sum) / (n - 1)

/-- Models the Python comparison `series.std() > 0.01` on a float64 series:
with fewer than two values the standard deviation is `NaN` and the
comparison is `False`; otherwise `std > 0.01` holds exactly when the sample
variance exceeds `0.01² = 1/10000` (both sides are nonnegative, and squaring
is monotone on nonnegatives). -/
def stdExceedsThreshold (xs : List ℚ) : Bool :=
  if xs.length < 2 then false
  else decide (sampleVariance xs > (1 / 100) ^ 2)

/-- `is_valid_sample` from `services/tph/main.py`. -/
def is_valid_sample (rows : List SampleRow) : Bool :=
  if rows.isEmpty then false
  else if rows.any rowHasNull then false
  else if stdExceedsThreshold (rows.filterMap SampleRow.sensor_time) then false
  else true

/-- Insert into a sorted list (ascending). -/
def insertSorted (x : ℚ) : List ℚ → List ℚ
  | [] => [x]
  | y :: ys => if x ≤ y then x :: y :: ys else y :: insertSorted x ys

/-- Ascending insertion sort, modelling the sort inside pandas
`Series.median()`. -/
def sortQ (xs : List ℚ) : List ℚ := xs.foldr insertSorted []

/-- Models pandas `Series.median()`: the middle element of the sorted values
for odd length, the average of the two middle elements for even length. -/
def medianQ (xs : List ℚ) : ℚ :=
  let s := sortQ xs
  let n := xs.length
  if n % 2 = 1 then s.getD (n / 2) 0
  else (s.getD (n / 2 - 1) 0 + s.getD (n / 2) 0) / 2

/-- Binary maximum on strings by lexicographic byte order, modelling pandas
`Series.max()` on a string column. -/
def tsMax (a b : String) : String := if a.data ≤ b.data then b else a

/-- Maximum of a list of timestamp strings (`sample_data["timestamp"].max()`);
the empty case is never used on a validated batch. -/
def maxTimestamp : List String → String
  | [] => ""
  | t :: rest => rest.foldl tsMax t

/-- The `median_data` record built in `main` and written to the store. -/
structure AggregatedReading where
  temperature : ℚ
  humidity : ℚ
  pressure : ℚ
  timestamp : String
deriving DecidableEq, Repr

/-- The aggregated record of one loop iteration of `main`:
per-channel `Series.median()` plus `Series.max()` of the timestamps. -/
def median_data (rows : List SampleRow) : AggregatedReading :=
  { temperature := medianQ (rows.filterMap SampleRow.temperature)
    humidity := medianQ (rows.filterMap SampleRow.humidity)
    pressure := medianQ (rows.filterMap SampleRow.pressure)
    timestamp := maxTimestamp (rows.filterMap SampleRow.timestamp) }

/-- One iteration of the `while True` loop of `main` acting on the store:
`cache.set("tph", json.dumps(median_data))` when the batch is valid,
no write otherwise. -/
def mainStep (store : String → Option AggregatedReading) (rows : List SampleRow) :
    String → Option AggregatedReading :=
  if is_valid_sample rows then
    fun k => if k = "tph" then some (median_data rows) else store k
  else store

/-- Outcome of `connect_redis`: a cache handle from a 0-based attempt index,
a re-raised `ConnectionError`, or the implicit `None` return when the `for`
loop body never runs (`retries = 0`). -/
inductive ConnectOutcome where
  | connected (attempt : ℕ)
  | raised
  | fellThrough
deriving DecidableEq, Repr

/-- The `for i in range(retries)` loop of `connect_redis`, unrolled on the
number of remaining iterations (`fuel`); `ping i` tells whether the `i`-th
connection attempt succeeds, `last = retries - 1` is the index at which the
`except` branch re-raises.  Returns the outcome together with the number of
connection attempts actually made. -/
def connectFrom (ping : ℕ → Bool) (last i : ℕ) : ℕ → ConnectOutcome × ℕ
  | 0 => (.fellThrough, 0)
  | fuel + 1 =>
    if ping i then (.connected i, 1)
    else if i = last then (.raised, 1)
    else
      let r := connectFrom ping last (i + 1) fuel
      (r.1, r.2 + 1)

/-- `connect_redis(retries, delay)` from `services/tph/main.py` (the fixed
`delay` between attempts has no observable effect beyond timing and is not
modelled). -/
def connect_redis (ping : ℕ → Bool) (retries : ℕ) : ConnectOutcome × ℕ :=
  connectFrom ping (retries - 1) 0 retries

lemma connectFrom_success (ping : ℕ → Bool) (last k : ℕ) (hk : k ≤ last)
    (hping : ping k = true) :
    ∀ fuel i, i ≤ k → k < i + fuel → (∀ j, i ≤ j → j < k → ping j = false) →
      connectFrom ping last i fuel = (.connected k, k + 1 - i) := by
  intro fuel
  induction fuel with
  | zero => intro i hik hlt _; omega
  | succ n ih =>
    intro i hik hlt hprev
    by_cases hi : i = k
    · subst hi
      simp [connectFrom, hping]
    · have hik' : i < k := lt_of_le_of_ne hik hi
      have hpi : ping i = false := hprev i le_rfl hik'
      have hine : i ≠ last := by omega
      have := ih (i + 1) (by omega) (by omega) (fun j hj hjk => hprev j (by omega) hjk)
      simp only [connectFrom, hpi, Bool.false_eq_true, if_false, hine, ite_false, this]
      refine Prod.ext rfl ?_
      simp
      omega

lemma connectFrom_all_fail (ping : ℕ → Bool) (last : ℕ) :
    ∀ fuel i, 0 < fuel → i + fuel = last + 1 →
      (∀ j, i ≤ j → j ≤ last → ping j = false) →
      connectFrom ping last i fuel = (.raised, fuel) := by
  intro fuel
  induction fuel with
  | zero => intro i h; omega
  | succ n ih =>
    intro i _ hsum hfail
    have hpi : ping i = false := hfail i le_rfl (by omega)
    by_cases hi : i = last
    · have hn : n = 0 := by omega
      subst hn hi
      simp [connectFrom, hpi]
    · have hn : 0 < n := by omega
      have := ih (i + 1) hn (by omega) (fun j hj hjl => hfail j (by omega) hjl)
      simp [connectFrom, hpi, hi, this]

lemma connectFrom_attempts_le (ping : ℕ → Bool) (last : ℕ) :
    ∀ fuel i, (connectFrom ping last i fuel).2 ≤ fuel := by
  intro fuel
  induction fuel with
  | zero => intro i; simp [connectFrom]
  | succ n ih =>
    intro i
    simp only [connectFrom]
    split_ifs with h1 h2
    · simp
    · simp
    · have := ih (i + 1)
      simpa using Nat.add_le_add_right (ih (i + 1)) 1

/-- C8: with at least one permitted attempt, `connect_redis` returns the
cache built by the first successful attempt (having made exactly that many
attempts), raises after `retries` consecutive failures having made exactly
`retries` attempts, and never makes more than `retries` attempts. -/
theorem connect_redis_retry_spec (ping : ℕ → Bool) (retries : ℕ) (h : 0 < retries) :
    (∀ k, k < retries → ping k = true → (∀ j, j < k → ping j = false) →
      connect_redis ping retries = (.connected k, k + 1)) ∧
    ((∀ j, j < retries → ping j = false) →
      connect_redis ping retries = (.raised, retries)) ∧
    (connect_redis ping retries).2 ≤ retries := by
  refine ⟨fun k hk hping hprev => ?_, fun hfail => ?_, ?_⟩
  · have := connectFrom_success ping (retries - 1) k (by omega) hping retries 0
      (by omega) (by omega) (fun j _ hjk => hprev j hjk)
    simpa using this
  · exact connectFrom_all_fail ping (retries - 1) retries 0 h (by omega)
      (fun j _ hjl => hfail j (by omega))
  · exact connectFrom_attempts_le ping (retries - 1) retries 0

/-- Witness for C8 at concrete inputs: with `retries = 5` and a connection
that fails on attempts 0–3 and succeeds on attempt 4, `connect_redis`
succeeds after exactly `retries − 1 = 4` failures with 5 attempts in total;
with a connection that always fails, it raises after exactly 5 attempts. -/
theorem connect_redis_retry_spec_witness :
    connect_redis (fun i => decide (i = 4)) 5 = (.connected 4, 5) ∧
    connect_redis (fun _ => false) 5 = (.raised, 5) := by
  constructor
  · exact (connect_redis_retry_spec (fun i => decide (i = 4)) 5 (by norm_num)).1 4
      (by norm_num) (by decide) (by decide)
  · exact (connect_redis_retry_spec (fun _ => false) 5 (by norm_num)).2.1
      (fun j _ => rfl)

/-- C5: `is_valid_sample` is false on an empty batch, false when any row has
a missing field, false when the latency standard deviation exceeds 0.01 s,
true otherwise; and an invalid batch leaves the store untouched (the batch
is accepted or discarded whole). -/
theorem is_valid_sample_spec (rows : List SampleRow) :
    (rows = [] → is_valid_sample rows = false) ∧
    (rows.any rowHasNull = true → is_valid_sample rows = false) ∧
    (stdExceedsThreshold (rows.filterMap SampleRow.sensor_time) = true →
      is_valid_sample rows = false) ∧
    (rows ≠ [] → rows.any rowHasNull = false →
      stdExceedsThreshold (rows.filterMap SampleRow.sensor_time) = false →
      is_valid_sample rows = true) ∧
    (∀ store, is_valid_sample rows = false → mainStep store rows = store) := by
  refine ⟨fun h => ?_, fun h => ?_, fun h => ?_, fun h1 h2 h3 => ?_, fun store h => ?_⟩
  · simp [is_valid_sample, h]
  · simp [is_valid_sample, h]
  · simp [is_valid_sample, h]
  · simp [is_valid_sample, h1, h2, h3]
  · simp [mainStep, h]

/-- A valid batch with jittery latencies, from the spec's fixture
`[0.001, 0.001, 0.2]` (std > 0.01). -/
def jitterBatch : List SampleRow :=
  [⟨some (1/1000), some "2024-01-01T12:00:00Z", some (41/2), some (226/5), some (5066/5)⟩,
   ⟨some (1/1000), some "2024-01-01T12:00:01Z", some (103/5), some (453/10), some (50665/50)⟩,
   ⟨some (1/5), some "2024-01-01T12:00:02Z", some (102/5), some (451/10), some (10131/10)⟩]

/-- Witness for C5 at concrete inputs: the empty batch is rejected, and so is
the complete 3-row batch whose latencies `[0.001, 0.001, 0.2]` have standard
deviation above 0.01. -/
theorem is_valid_sample_spec_witness :
    is_valid_sample [] = false ∧ is_valid_sample jitterBatch = false := by
  constructor
  · exact (is_valid_sample_spec []).1 rfl
  · refine (is_valid_sample_spec jitterBatch).2.2.1 ?_
    have hfm : jitterBatch.filterMap SampleRow.sensor_time = [1/1000, 1/1000, 1/5] := by
      simp [jitterBatch]
    rw [hfm]
    simp only [stdExceedsThreshold, List.length_cons, List.length_nil]
    norm_num [sampleVariance]

/-- C10: a one-row batch with every field present is always valid, whatever
its sensor latency: the sample standard deviation of a single value is `NaN`
and `NaN > 0.01` is false, so the jitter branch never fires. -/
theorem single_row_batch_is_valid (lat t h p : ℚ) (ts : String) :
    is_valid_sample [⟨some lat, some ts, some t, some h, some p⟩] = true := by
  simp [is_valid_sample, rowHasNull, stdExceedsThreshold]

lemma foldl_tsMax_mem (t : String) (ts : List String) :
    ts.foldl tsMax t ∈ t :: ts := by
  induction ts generalizing t with
  | nil => simp
  | cons b bs ih =>
    simp only [List.foldl_cons]
    rcases List.mem_cons.mp (ih (tsMax t b)) with h | h
    · rw [h]
      by_cases hle : t.data ≤ b.data <;> simp [tsMax, hle]
    · simp [List.mem_cons, h]

lemma le_tsMax_left (a b : String) : a.data ≤ (tsMax a b).data := by
  by_cases hle : a.data ≤ b.data <;> simp [tsMax, hle]

lemma le_tsMax_right (a b : String) : b.data ≤ (tsMax a b).data := by
  by_cases hle : a.data ≤ b.data
  · simp [tsMax, hle]
  · simpa [tsMax, hle] using le_of_not_le hle

lemma foldl_tsMax_le (t : String) (ts : List String) :
    ∀ x ∈ t :: ts, x.data ≤ (ts.foldl tsMax t).data := by
  induction ts generalizing t with
  | nil => simp
  | cons b bs ih =>
    intro x hx
    simp only [List.foldl_cons]
    have hbound := ih (tsMax t b)
    rcases List.mem_cons.mp hx with h | h
    · subst h
      exact le_trans (le_tsMax_left x b) (hbound _ (List.mem_cons_self _ _))
    · rcases List.mem_cons.mp h with h' | h'
      · subst h'
        exact le_trans (le_tsMax_right t x) (hbound _ (List.mem_cons_self _ _))
      · exact hbound x (List.mem_cons_of_mem _ h')

lemma valid_timestamps_nonempty (rows : List SampleRow)
    (hvalid : is_valid_sample rows = true) :
    rows.filterMap SampleRow.timestamp ≠ [] := by
  simp only [is_valid_sample] at hvalid
  split_ifs at hvalid with h1 h2 h3
  cases rows with
  | nil => simp at h1
  | cons r rest =>
    have hr : rowHasNull r = false := by
      cases h : rowHasNull r with
      | false => rfl
      | true => exact absurd (by simp [h] : (r :: rest).any rowHasNull = true) h2
    have hts : r.timestamp.isSome = true := by
      cases h : r.timestamp with
      | none => simp [rowHasNull, h] at hr
      | some ts => rfl
    rcases Option.isSome_iff_exists.mp hts with ⟨ts, hts'⟩
    simp [List.filterMap_cons, hts']

/-- C6: on a valid batch, one loop iteration writes under key `"tph"` exactly
the record whose channels are the per-channel medians and whose timestamp is
the maximum timestamp of the batch (an element of the batch that bounds all
others from above), and touches no other key. -/
theorem aggregate_written_record (store : String → Option AggregatedReading)
    (rows : List SampleRow) (hvalid : is_valid_sample rows = true) :
    mainStep store rows "tph" = some (median_data rows) ∧
    (∀ k, k ≠ "tph" → mainStep store rows k = store k) ∧
    median_data rows = ⟨medianQ (rows.filterMap SampleRow.temperature),
                        medianQ (rows.filterMap SampleRow.humidity),
                        medianQ (rows.filterMap SampleRow.pressure),
                        maxTimestamp (rows.filterMap SampleRow.timestamp)⟩ ∧
    maxTimestamp (rows.filterMap SampleRow.timestamp)
      ∈ rows.filterMap SampleRow.timestamp ∧
    ∀ ts ∈ rows.filterMap SampleRow.timestamp,
      ts.data ≤ (maxTimestamp (rows.filterMap SampleRow.timestamp)).data := by
  refine ⟨?_, fun k hk => ?_, rfl, ?_, ?_⟩
  · simp [mainStep, hvalid]
  · simp [mainStep, hvalid, hk]
  · rcases hne : rows.filterMap SampleRow.timestamp with - | ⟨t, rest⟩
    · exact absurd hne (valid_timestamps_nonempty rows hvalid)
    · simpa [maxTimestamp] using foldl_tsMax_mem t rest
  · intro ts hts
    rcases hne : rows.filterMap SampleRow.timestamp with - | ⟨t, rest⟩
    · exact absurd hne (valid_timestamps_nonempty rows hvalid)
    · rw [hne] at hts
      simpa [maxTimestamp] using foldl_tsMax_le t rest ts hts

/-- A complete, calm 3-row batch: latencies `[0.001, 0.001, 0.001]` (std ≤
0.01), temperatures `[20.5, 20.6, 20.4]`, humidities `[45.2, 45.3, 45.1]`,
pressures `[1013.2, 1013.3, 1013.1]`. -/
def calmBatch : List SampleRow :=
  [⟨some (1/1000), some "2024-01-01T12:00:00Z", some (41/2), some (226/5), some (5066/5)⟩,
   ⟨some (1/1000), some "2024-01-01T12:00:01Z", some (103/5), some (453/10), some (10133/10)⟩,
   ⟨some (1/1000), some "2024-01-01T12:00:02Z", some (102/5), some (451/10), some (10131/10)⟩]

/-- Witness for C6 at a concrete input: the calm batch is valid, and one loop
iteration starting from the empty store stores exactly the medians
(`20.5`, `45.2`, `1013.2`) and the latest timestamp. -/
theorem aggregate_written_record_witness :
    is_valid_sample calmBatch = true ∧
    mainStep (fun _ => none) calmBatch "tph"
      = some ⟨41/2, 226/5, 5066/5, "2024-01-01T12:00:02Z"⟩ := by
  have hv : is_valid_sample calmBatch = true := by
    have hfm : calmBatch.filterMap SampleRow.sensor_time = [1/1000, 1/1000, 1/1000] := by
      simp [calmBatch]
    simp only [is_valid_sample, hfm]
    norm_num [calmBatch, rowHasNull, stdExceedsThreshold, sampleVariance]
  refine ⟨hv, ?_⟩
  rw [(aggregate_written_record (fun _ => none) calmBatch hv).1]
  have e1 : calmBatch.filterMap SampleRow.temperature = [41/2, 103/5, 102/5] := by
    simp [calmBatch]
  have e2 : calmBatch.filterMap SampleRow.humidity = [226/5, 453/10, 451/10] := by
    simp [calmBatch]
  have e3 : calmBatch.filterMap SampleRow.pressure = [5066/5, 10133/10, 10131/10] := by
    simp [calmBatch]
  have e4 : calmBatch.filterMap SampleRow.timestamp
      = ["2024-01-01T12:00:00Z", "2024-01-01T12:00:01Z", "2024-01-01T12:00:02Z"] := by
    simp [calmBatch]
  have h1 : medianQ [41/2, 103/5, 102/5] = 41/2 := by
    norm_num [medianQ, sortQ, insertSorted]
  have h2 : medianQ [226/5, 453/10, 451/10] = 226/5 := by
    norm_num [medianQ, sortQ, insertSorted]
  have h3 : medianQ [5066/5, 10133/10, 10131/10] = 5066/5 := by
    norm_num [medianQ, sortQ, insertSorted]
  have h4 : maxTimestamp ["2024-01-01T12:00:00Z", "2024-01-01T12:00:01Z",
      "2024-01-01T12:00:02Z"] = "2024-01-01T12:00:02Z" := by
    simp only [maxTimestamp, List.foldl_cons, List.foldl_nil]
    decide
  simp only [median_data, e1, e2, e3, e4, h1, h2, h3, h4]

/-! ## services/data/main.py -/

/-- JSON values, as produced by Python `json.loads`. -/
inductive JVal where
  | jnull
  | jbool (b : Bool)
  | jnum (q : ℚ)
  | jstr (s : String)
  | jarr (xs : List JVal)
  | jobj (fields : List (String × JVal))

/-- A raw string value stored under the key `"tph"`, classified by what
`json.loads` does with it: the empty string (falsy in Python, caught by the
`if not data` check before parsing), a nonempty string that is not valid
JSON, or a nonempty string parsing to a JSON value. -/
inductive RawStored where
  | emptyStr
  | invalidJson
  | parsed (j : JVal)

/-- Response of the `GET /api/v1/tph` endpoint: 200 with the `TPHData`
record, 404 (`"No TPH data available"`), or 500 (`"Error processing TPH
data"`). -/
inductive ApiResponse where
  | ok (temperature pressure humidity : ℚ) (timestamp : String)
  | notFound
  | serverError

/-- Shape check for a timestamp string `YYYY-MM-DDTHH:MM:SS`. -/
def isoShape (cs : List Char) : Bool :=
  (cs.length == 19) && (List.range 19).all fun i =>
    let c := cs.getD i ' '
    if i == 4 || i == 7 then c == '-'
    else if i == 10 then c == 'T'
    else if i == 13 || i == 16 then c == ':'
    else c.isDigit

/-- Models the Python library round trip
`datetime.fromisoformat(s).isoformat()` used by the endpoint, restricted to
the `YYYY-MM-DDTHH:MM:SS` form exercised by this system: `none` when the
string cannot be parsed, otherwise the canonical re-serialization. -/
def isoCanon (s : String) : Option String :=
  if isoShape s.data then some s else none

/-- The `try` block of `get_tph_data` applied to a parsed JSON value:
`tph_data['timestamp']` (a KeyError or TypeError becomes 500), then
`datetime.fromisoformat` (a ValueError becomes 500), then construction of
`TPHData` with fields `temperature`/`pressure`/`humidity` as numbers and the
re-serialized timestamp (a validation error becomes 500). -/
def processParsed (j : JVal) : ApiResponse :=
  match j with
  | .jobj fields =>
    match fields.lookup "timestamp" with
    | some (.jstr s) =>
      match isoCanon s with
      | some canon =>
        match fields.lookup "temperature", fields.lookup "pressure",
            fields.lookup "humidity" with
        | some (.jnum t), some (.jnum p), some (.jnum h) => .ok t p h canon
        | _, _, _ => .serverError
      | none => .serverError
    | _ => .serverError
  | _ => .serverError

/-- `get_tph_data` from `services/data/main.py`: `data = await redis.get("tph")`,
404 when `not data` (i.e. `None` or the empty string), otherwise the guarded
JSON processing. -/
def get_tph_data : Option RawStored → ApiResponse
  | none => .notFound
  | some .emptyStr => .notFound
  | some .invalidJson => .serverError
  | some (.parsed j) => processParsed j

lemma processParsed_ne_notFound (j : JVal) : processParsed j ≠ .notFound := by
  unfold processParsed
  repeat' split
  all_goals simp

/-- C9 counterexample: the claim says 404 is returned *iff* no value is
stored, and that a stored value that is not valid JSON yields a 500-class
error.  But for the stored value `""` (which is stored, and is not valid
JSON) the endpoint's `if not data` check fires, because the empty string is
falsy in Python, and the endpoint returns 404, not 500. -/
theorem get_tph_data_emptystring_counterexample :
    get_tph_data (some .emptyStr) = .notFound ∧
    get_tph_data (some .emptyStr) ≠ .serverError ∧
    (some RawStored.emptyStr ≠ (none : Option RawStored)) :=
  ⟨rfl, by simp [get_tph_data], by simp⟩

/-- C9 (amended): the endpoint returns 404 iff no value is stored *or the
stored value is the empty string*; it returns a 500-class error (never
crashing) when a nonempty stored value is not valid JSON, when the
`timestamp` field is missing or unparseable, or when a required numeric
field is missing; and otherwise it returns 200 with the record and the
canonically re-serialized timestamp. -/
theorem get_tph_data_characterization (d : Option RawStored) :
    (get_tph_data d = .notFound ↔ d = none ∨ d = some .emptyStr) ∧
    (d = some .invalidJson → get_tph_data d = .serverError) ∧
    (∀ fields, d = some (.parsed (.jobj fields)) →
      fields.lookup "timestamp" = none → get_tph_data d = .serverError) ∧
    (∀ fields s, d = some (.parsed (.jobj fields)) →
      fields.lookup "timestamp" = some (.jstr s) → isoCanon s = none →
      get_tph_data d = .serverError) ∧
    (∀ fields s canon, d = some (.parsed (.jobj fields)) →
      fields.lookup "timestamp" = some (.jstr s) → isoCanon s = some canon →
      fields.lookup "pressure" = none → get_tph_data d = .serverError) ∧
    (∀ fields s canon t p h, d = some (.parsed (.jobj fields)) →
      fields.lookup "timestamp" = some (.jstr s) → isoCanon s = some canon →
      fields.lookup "temperature" = some (.jnum t) →
      fields.lookup "pressure" = some (.jnum p) →
      fields.lookup "humidity" = some (.jnum h) →
      get_tph_data d = .ok t p h canon) := by
  refine ⟨?_, fun h => ?_, fun fields hd hts => ?_, fun fields s hd hts hc => ?_,
    fun fields s canon hd hts hc hp => ?_, fun fields s canon t p h hd hts hc h1 h2 h3 => ?_⟩
  · constructor
    · intro h
      rcases d with - | rs
      · exact Or.inl rfl
      · rcases rs with - | - | j
        · exact Or.inr rfl
        · exact absurd h (by simp [get_tph_data])
        · exact absurd h (processParsed_ne_notFound j)
    · rintro (rfl | rfl) <;> rfl
  · subst h; rfl
  · subst hd
    simp only [get_tph_data, processParsed, hts]
  · subst hd
    simp only [get_tph_data, processParsed, hts, hc]
  · subst hd
    simp only [get_tph_data, processParsed, hts, hc, hp]
    split <;> simp_all
  · subst hd
    simp only [get_tph_data, processParsed, hts, hc, h1, h2, h3]

/-- The JSON object of the spec's end-to-end fixture:
`{"temperature": 21.5, "pressure": 1013.25, "humidity": 45.7,
"timestamp": "2024-01-01T12:00:00"}`. -/
def tphSampleFields : List (String × JVal) :=
  [("temperature", .jnum (43/2)), ("pressure", .jnum (4053/4)),
   ("humidity", .jnum (457/10)), ("timestamp", .jstr "2024-01-01T12:00:00")]

/-- The same object with `"timestamp": "invalid-timestamp"`. -/
def badTsFields : List (String × JVal) :=
  [("temperature", .jnum (43/2)), ("pressure", .jnum (4053/4)),
   ("humidity", .jnum (457/10)), ("timestamp", .jstr "invalid-timestamp")]

/-- Witness for the amended C9 at concrete inputs: the spec's sample record
is served with status 200 and its timestamp unchanged by canonical
re-serialization, and the same record with `"timestamp":
"invalid-timestamp"` yields a 500-class error. -/
theorem get_tph_data_characterization_witness :
    get_tph_data (some (.parsed (.jobj tphSampleFields)))
      = .ok (43/2) (4053/4) (457/10) "2024-01-01T12:00:00" ∧
    get_tph_data (some (.parsed (.jobj badTsFields))) = .serverError := by
  constructor
  · exact (get_tph_data_characterization (some (.parsed (.jobj tphSampleFields)))).2.2.2.2.2
      tphSampleFields "2024-01-01T12:00:00" "2024-01-01T12:00:00" (43/2) (4053/4) (457/10)
      rfl (by rfl) (by decide) (by rfl) (by rfl) (by rfl)
  · exact (get_tph_data_characterization (some (.parsed (.jobj badTsFields)))).2.2.2.1
      badTsFields "invalid-timestamp" rfl (by rfl) (by decide)
